import Mathlib

/-!
Shallow embedding of the SmartTranslator translation pipeline.

The repository contains two variants of the pipeline:
* `geminiService` (`translateText`) together with the `TranslationPlayground`
  component and the shared `types` module;
* the self-contained `App` component with its own inline client, history and
  persistence effects.

External collaborators (the Gemini SDK call, `JSON.parse`, `localStorage`,
JavaScript string primitives) are modelled as explicit inputs or small
executable functions mirroring their runtime semantics.
-/

set_option linter.unusedVariables false

/-- Model of the JavaScript whitespace class used by `String.prototype.trim`
(restricted to the ASCII whitespace characters that occur in this code base). -/
def jsWhitespace (c : Char) : Bool := c.isWhitespace

/-- Model of `String.prototype.trim`: drop leading and trailing whitespace. -/
def jsTrim (s : String) : String :=
  String.mk (((s.data.dropWhile jsWhitespace).reverse.dropWhile jsWhitespace).reverse)

/-- The `TranslationMode` enum from the `types` module. -/
inductive TranslationMode
  | UZ_RU
  | UZ_EN
deriving DecidableEq, Repr

/-- The `Language` union type from `App.tsx` (`'UZ' | 'RU' | 'EN'`); named
`AppLanguage` here because `Language` already exists in the library. -/
inductive AppLanguage
  | UZ
  | RU
  | EN
deriving DecidableEq, Repr

/-- The `Tone` union type from `App.tsx` (`'natural' | 'formal' | 'slang'`).
The raw enum tokens are the strings "natural", "formal", "slang". -/
inductive Tone
  | natural
  | formal
  | slang
deriving DecidableEq, Repr

/-- The `AppStatus` union type from the `types` module. -/
inductive AppStatus
  | READY
  | TRANSLATING
  | ERROR
  | SUCCESS
deriving DecidableEq, Repr

/-- The `AppSettings` interface from the `types` module. -/
structure AppSettings where
  mode : TranslationMode
  apiKey : String
deriving DecidableEq, Repr

/-- The `TranslationResult` interface from the `types` module
(history entries of the playground). -/
structure TranslationResult where
  original : String
  translated : String
  timestamp : Nat
deriving DecidableEq, Repr

/-- The `TranslationRecord` interface from `App.tsx`; the source fields
`from` and `to` are rendered as `fromLang` and `toLang`. -/
structure TranslationRecord where
  id : String
  fromLang : String
  toLang : AppLanguage
  original : String
  translated : String
  tone : Tone
  timestamp : Nat
deriving DecidableEq, Repr

/-- A JavaScript `Error` value: a generic error distinguished only by its
`message` string (every `throw` in this code base is `new Error(msg)`). -/
structure JsError where
  message : String
deriving DecidableEq, Repr

/-- Outcome of one call of the external Gemini service
(`ai.models.generateContent`): either a response whose `text` field is a
string or absent, or a thrown transport/SDK error. -/
inductive SvcOutcome
  | ok (text : Option String)
  | exn (e : JsError)
deriving DecidableEq, Repr

/-- `mode === TranslationMode.UZ_RU ? "Russian" : "English"` in `translateText`. -/
def svcTargetLanguage (mode : TranslationMode) : String :=
  match mode with
  | .UZ_RU => "Russian"
  | .UZ_EN => "English"

/-- The system instruction template literal built inside `translateText`. -/
def svcSystemInstruction (mode : TranslationMode) : String :=
  "You are a professional translator. Translate the following Uzbek text into "
    ++ svcTargetLanguage mode
    ++ ". Provide only the translated text. Do not include explanations, quotes, or notes. Ensure the tone is natural and appropriate for social media messaging (Telegram, WhatsApp)."

/-- Observable outcome of one invocation of `translateText`: the value
returned or error thrown to the caller, and how many times the external
service was invoked. -/
structure TranslateRun where
  result : Except JsError String
  serviceCalls : Nat
deriving Repr

/-- Shallow embedding of `translateText` from `geminiService`.  The guard
`if (!apiKey) throw new Error("API Key is required")` runs outside the
`try` block, so no service call happens for a falsy (empty) key.  Inside
the `try`, `if (!translated) throw new Error("Empty response from AI")`
fires exactly when `response.text` is absent or the empty string; otherwise
`translated.trim()` is returned.  The `catch` re-throws
`new Error(error.message || "Failed to communicate with Gemini API")`. -/
def translateText (text : String) (mode : TranslationMode) (apiKey : String)
    (svc : SvcOutcome) : TranslateRun :=
  if apiKey = "" then
    { result := .error { message := "API Key is required" }, serviceCalls := 0 }
  else
    let attempt : Except JsError String :=
      match svc with
      | .exn e => .error e
      | .ok t =>
        match t with
        | none => .error { message := "Empty response from AI" }
        | some translated =>
          if translated = "" then .error { message := "Empty response from AI" }
          else .ok (jsTrim translated)
    match attempt with
    | .ok s => { result := .ok s, serviceCalls := 1 }
    | .error e =>
      { result := .error { message := if e.message = "" then "Failed to communicate with Gemini API" else e.message },
        serviceCalls := 1 }

/-- History insertion of the playground:
`setHistory(prev => [result, ...prev].slice(0, 5))`. -/
def pgAppend (result : TranslationResult) (prev : List TranslationResult) :
    List TranslationResult :=
  (result :: prev).take 5

/-- Observable outcome of one run of `handleTranslate` in
`TranslationPlayground`: the statuses set during the run in order, the
delay of the deferred return to READY, the number of external service
calls, the final history, the message passed to `setErrorMessage`, and the
final content of the text box. -/
structure PgRun where
  statusTrace : List AppStatus
  returnDelayMs : Option Nat
  serviceCalls : Nat
  history : List TranslationResult
  errorMessage : Option String
  inputAfter : String
deriving Repr

/-- Shallow embedding of `handleTranslate` from `TranslationPlayground`.
Guards: `if (!inputText.trim()) return;` then
`if (!settings.apiKey) { setErrorMessage(...); return; }` — both run before
`setStatus('TRANSLATING')`.  On success the box text is replaced, the new
result is prepended with `slice(0, 5)`, status goes SUCCESS then READY
after 2000 ms.  On a caught error status goes ERROR,
`setErrorMessage(error.message || "Failed to translate")`, then READY
after 5000 ms. -/
def pgHandleTranslate (inputText : String) (settings : AppSettings)
    (svc : SvcOutcome) (hist : List TranslationResult) (now : Nat) : PgRun :=
  if jsTrim inputText = "" then
    { statusTrace := [], returnDelayMs := none, serviceCalls := 0,
      history := hist, errorMessage := none, inputAfter := inputText }
  else if settings.apiKey = "" then
    { statusTrace := [], returnDelayMs := none, serviceCalls := 0,
      history := hist,
      errorMessage := some "Please set an API Key in Settings first.",
      inputAfter := inputText }
  else
    let run := translateText inputText settings.mode settings.apiKey svc
    match run.result with
    | .ok translated =>
      let result : TranslationResult :=
        { original := inputText, translated := translated, timestamp := now }
      { statusTrace := [.TRANSLATING, .SUCCESS, .READY],
        returnDelayMs := some 2000, serviceCalls := run.serviceCalls,
        history := pgAppend result hist, errorMessage := none,
        inputAfter := translated }
    | .error e =>
      { statusTrace := [.TRANSLATING, .ERROR, .READY],
        returnDelayMs := some 5000, serviceCalls := run.serviceCalls,
        history := hist,
        errorMessage := some (if e.message = "" then "Failed to translate" else e.message),
        inputAfter := inputText }

/-- `targetLang === 'RU' ? 'Russian' : 'English'` in `App.handleTranslate`. -/
def targetFull (targetLang : AppLanguage) : String :=
  match targetLang with
  | .RU => "Russian"
  | .UZ => "English"
  | .EN => "English"

/-- The `toneMap` object literal from `App.handleTranslate`. -/
def toneMap (tone : Tone) : String :=
  match tone with
  | .natural => "conversational, warm, and perfect for social apps like Telegram."
  | .formal => "highly professional, respectful, and suitable for formal business documentation."
  | .slang => "urban, casual, youth-oriented with relevant slang expressions."

/-- The system instruction template literal from `App.handleTranslate`,
with the exact line breaks and indentation of the source. -/
def appSystemInstruction (targetLang : AppLanguage) (tone : Tone) : String :=
  "Linguistic Mode: Elite Translator. \n          Goal: Translate Uzbek to "
    ++ targetFull targetLang
    ++ ". \n          Tone: "
    ++ toneMap tone
    ++ ". \n          Constraint: Output ONLY the translated text. Do not provide meta-commentary, quotes, or notes."

/-- JavaScript falsiness of `process.env.API_KEY`: the key is falsy when the
environment variable is absent or the empty string. -/
def jsFalsyKey (envKey : Option String) : Bool :=
  match envKey with
  | none => true
  | some s => s = ""

/-- The error message `App.handleTranslate` shows when its caught error has
`message === "API_KEY_MISSING"`. -/
def appKeyMissingMessage : String :=
  "Neural Core Offline: API_KEY is missing from environment. check Netlify settings."

/-- History insertion of `App.handleTranslate`:
`setHistory(prev => [{...}, ...prev])` — no truncation in memory. -/
def appAppend (record : TranslationRecord) (prev : List TranslationRecord) :
    List TranslationRecord :=
  record :: prev

/-- The persistence sync effect of `App`:
`localStorage.setItem('stp_elite_vault_v3', JSON.stringify(history.slice(0, 50)))`.
Serialization is modelled as faithful, so the persisted snapshot is the
50-record front slice of the in-memory log. -/
def appPersist (history : List TranslationRecord) : List TranslationRecord :=
  history.take 50

/-- The clear-all action of `App`:
`setHistory([]); localStorage.removeItem('stp_elite_vault_v3')`. -/
def appClearHistory (hist : List TranslationRecord) : List TranslationRecord :=
  []

/-- The restore effect of `App`: reads the stored payload and, guarded by
`if (saved)` — JavaScript truthiness, so an absent *or empty-string*
payload is skipped without parsing or logging — runs
`try { setHistory(JSON.parse(saved)) } catch (e) { console.error("Vault corruption.") }`.
`jsonParse` models `JSON.parse` on the stored payload; the Bool records
whether the corruption diagnostic was logged.  The function is total: no
error escapes the boundary. -/
def appRestore (saved : Option String)
    (jsonParse : String → Except JsError (List TranslationRecord)) :
    List TranslationRecord × Bool :=
  match saved with
  | none => ([], false)
  | some s =>
    if s = "" then ([], false)
    else
      match jsonParse s with
      | .error e => ([], true)
      | .ok l => (l, false)

/-- Observable outcome of one run of `handleTranslate` in `App`: whether the
translating flag was ever set, the number of external service calls, the
final history, the translated text shown, and the error banner content. -/
structure AppRun where
  enteredTranslating : Bool
  serviceCalls : Nat
  history : List TranslationRecord
  translatedText : String
  errorDetails : Option String
  isTranslatingAfter : Bool
deriving Repr

/-- Shallow embedding of `handleTranslate` from `App.tsx`.  The empty-text
guard runs first; `setIsTranslating(true)` runs before the credential check
`if (!key) throw new Error("API_KEY_MISSING")`.  On a service response the
result is `response.text?.trim() || "Empty buffer."` and a new record is
prepended to the history with no truncation.  The catch shows the key
message when the caught message equals "API_KEY_MISSING" and otherwise
"Linguistic Error: " followed by the caught message. -/
def appHandleTranslate (inputText : String) (envKey : Option String)
    (targetLang : AppLanguage) (tone : Tone) (svc : SvcOutcome)
    (hist : List TranslationRecord) (newId : String) (now : Nat) : AppRun :=
  if jsTrim inputText = "" then
    { enteredTranslating := false, serviceCalls := 0, history := hist,
      translatedText := "", errorDetails := none, isTranslatingAfter := false }
  else if jsFalsyKey envKey then
    { enteredTranslating := true, serviceCalls := 0, history := hist,
      translatedText := "", errorDetails := some appKeyMissingMessage,
      isTranslatingAfter := false }
  else
    match svc with
    | .exn e =>
      { enteredTranslating := true, serviceCalls := 1, history := hist,
        translatedText := "",
        errorDetails := some (if e.message = "API_KEY_MISSING"
          then appKeyMissingMessage
          else "Linguistic Error: " ++ e.message),
        isTranslatingAfter := false }
    | .ok t =>
      let result : String :=
        match t with
        | none => "Empty buffer."
        | some s => if jsTrim s = "" then "Empty buffer." else jsTrim s
      { enteredTranslating := true, serviceCalls := 1,
        history := appAppend
          { id := newId, fromLang := "UZ", toLang := targetLang,
            original := inputText, translated := result, tone := tone,
            timestamp := now } hist,
        translatedText := result, errorDetails := none,
        isTranslatingAfter := false }

/-- Boolean test that `n` occurs at the start of `h` (character lists). -/
def startsWithTok : List Char → List Char → Bool
  | [], _ => true
  | _ :: _, [] => false
  | a :: as, b :: bs => a == b && startsWithTok as bs

/-- Boolean substring test on character lists. -/
def containsTokAux (n : List Char) : List Char → Bool
  | [] => startsWithTok n []
  | h :: t => startsWithTok n (h :: t) || containsTokAux n t

/-- Boolean substring test on strings: `containsTok needle haystack` holds
when `needle` occurs contiguously inside `haystack`. -/
def containsTok (needle haystack : String) : Bool :=
  containsTokAux needle.data haystack.data

/-- A sample `App` history record used in concrete scenarios. -/
def recA : TranslationRecord :=
  { id := "a", fromLang := "UZ", toLang := AppLanguage.RU, original := "salom",
    translated := "privet", tone := Tone.natural, timestamp := 1 }

/-- A second, distinct sample `App` history record. -/
def recB : TranslationRecord :=
  { id := "b", fromLang := "UZ", toLang := AppLanguage.RU, original := "rahmat",
    translated := "spasibo", tone := Tone.natural, timestamp := 2 }

/-- Sample playground history entries indexed by timestamp. -/
def mkRes (n : Nat) : TranslationResult :=
  { original := "o", translated := "t", timestamp := n }

set_option maxRecDepth 10000

/-- Helper: behaviour of `translateText` when the service throws. -/
theorem translateText_exn (text : String) (mode : TranslationMode)
    (apiKey : String) (e : JsError) (hk : apiKey ≠ "") :
    translateText text mode apiKey (.exn e) =
      { result := .error { message := if e.message = "" then "Failed to communicate with Gemini API" else e.message },
        serviceCalls := 1 } := by
  simp [translateText, hk]

/-- Helper: the playground run when the trimmed input is empty. -/
theorem pg_empty_input (input : String) (settings : AppSettings)
    (svc : SvcOutcome) (hist : List TranslationResult) (now : Nat)
    (h1 : jsTrim input = "") :
    pgHandleTranslate input settings svc hist now =
      { statusTrace := [], returnDelayMs := none, serviceCalls := 0,
        history := hist, errorMessage := none, inputAfter := input } := by
  simp [pgHandleTranslate, h1]

/-- Helper: the playground run when the API key setting is empty. -/
theorem pg_empty_key (input : String) (settings : AppSettings)
    (svc : SvcOutcome) (hist : List TranslationResult) (now : Nat)
    (h1 : jsTrim input ≠ "") (h2 : settings.apiKey = "") :
    pgHandleTranslate input settings svc hist now =
      { statusTrace := [], returnDelayMs := none, serviceCalls := 0,
        history := hist,
        errorMessage := some "Please set an API Key in Settings first.",
        inputAfter := input } := by
  simp [pgHandleTranslate, h1, h2]

/-- Helper: the playground run when both guards pass and the client succeeds. -/
theorem pg_ok (input : String) (settings : AppSettings) (svc : SvcOutcome)
    (hist : List TranslationResult) (now : Nat) (s : String)
    (h1 : jsTrim input ≠ "") (h2 : settings.apiKey ≠ "")
    (hok : (translateText input settings.mode settings.apiKey svc).result = .ok s) :
    pgHandleTranslate input settings svc hist now =
      { statusTrace := [.TRANSLATING, .SUCCESS, .READY],
        returnDelayMs := some 2000,
        serviceCalls := (translateText input settings.mode settings.apiKey svc).serviceCalls,
        history := pgAppend { original := input, translated := s, timestamp := now } hist,
        errorMessage := none, inputAfter := s } := by
  simp [pgHandleTranslate, h1, h2, hok]

/-- Helper: the playground run when both guards pass and the client fails. -/
theorem pg_err (input : String) (settings : AppSettings) (svc : SvcOutcome)
    (hist : List TranslationResult) (now : Nat) (e : JsError)
    (h1 : jsTrim input ≠ "") (h2 : settings.apiKey ≠ "")
    (herr : (translateText input settings.mode settings.apiKey svc).result = .error e) :
    pgHandleTranslate input settings svc hist now =
      { statusTrace := [.TRANSLATING, .ERROR, .READY],
        returnDelayMs := some 5000,
        serviceCalls := (translateText input settings.mode settings.apiKey svc).serviceCalls,
        history := hist,
        errorMessage := some (if e.message = "" then "Failed to translate" else e.message),
        inputAfter := input } := by
  simp [pgHandleTranslate, h1, h2, herr]

/-- C7: `translateText` called with an empty credential fails with the
missing-credential error ("API Key is required") and performs zero calls of
the external service. -/
theorem C7_translate_empty_credential (text : String) (mode : TranslationMode)
    (svc : SvcOutcome) :
    translateText text mode "" svc =
      { result := .error { message := "API Key is required" }, serviceCalls := 0 } := by
  simp [translateText]

/-- C1 counterexample: a whitespace-only raw response trims to the empty
string, yet `translateText` returns success with empty text instead of
failing with the empty-response error. -/
theorem C1_counterexample :
    jsTrim "   " = "" ∧
    (translateText "Salom" TranslationMode.UZ_RU "key" (SvcOutcome.ok (some "   "))).result
      = Except.ok "" := by
  exact ⟨by decide, rfl⟩

/-- C1 (amended): `translateText` fails with the empty-response error exactly
when the raw `text` field is absent or the empty string; any other raw text
— including whitespace-only text — is returned as success carrying its
trimmed value, so a whitespace-only response yields success with empty text. -/
theorem C1_empty_response_check (text : String) (mode : TranslationMode)
    (apiKey : String) (raw : Option String) (hk : apiKey ≠ "") :
    ((raw = none ∨ raw = some "") →
      (translateText text mode apiKey (SvcOutcome.ok raw)).result
        = Except.error { message := "Empty response from AI" }) ∧
    (∀ s, raw = some s → s ≠ "" →
      (translateText text mode apiKey (SvcOutcome.ok raw)).result
        = Except.ok (jsTrim s)) := by
  constructor
  · rintro (rfl | rfl) <;> simp [translateText, hk]
  · rintro s rfl hs
    simp [translateText, hk, hs]

/-- C1 witness: the amended statement applied to a one-space raw response. -/
theorem C1_empty_response_check_witness :
    (translateText "Salom" TranslationMode.UZ_RU "key" (SvcOutcome.ok (some " "))).result
      = Except.ok (jsTrim " ") :=
  (C1_empty_response_check "Salom" TranslationMode.UZ_RU "key" (some " ")
    (by decide)).2 " " rfl (by decide)

/-- C10: every failing invocation of `translateText` surfaces a plain
message-only error value; the internally raised empty-response failure
passes through the same catch handler as a transport error, so for a
transport error carrying the same message the caller receives the
identical error value — the two are indistinguishable at the boundary. -/
theorem C10_indistinguishable_errors (text : String) (mode : TranslationMode)
    (apiKey : String) (hk : apiKey ≠ "") :
    (translateText text mode apiKey (SvcOutcome.ok (some ""))).result
      = Except.error { message := "Empty response from AI" } ∧
    (translateText text mode apiKey (SvcOutcome.ok none)).result
      = (translateText text mode apiKey (SvcOutcome.ok (some ""))).result ∧
    (translateText text mode apiKey (SvcOutcome.exn { message := "Empty response from AI" })).result
      = (translateText text mode apiKey (SvcOutcome.ok (some ""))).result := by
  refine ⟨?_, ?_, ?_⟩ <;> simp [translateText, hk]

/-- C10 witness: the indistinguishability statement at concrete inputs. -/
theorem C10_indistinguishable_errors_witness :
    (translateText "Salom" TranslationMode.UZ_RU "key" (SvcOutcome.ok (some ""))).result
      = Except.error { message := "Empty response from AI" } ∧
    (translateText "Salom" TranslationMode.UZ_RU "key" (SvcOutcome.ok none)).result
      = (translateText "Salom" TranslationMode.UZ_RU "key" (SvcOutcome.ok (some ""))).result ∧
    (translateText "Salom" TranslationMode.UZ_RU "key" (SvcOutcome.exn { message := "Empty response from AI" })).result
      = (translateText "Salom" TranslationMode.UZ_RU "key" (SvcOutcome.ok (some ""))).result :=
  C10_indistinguishable_errors "Salom" TranslationMode.UZ_RU "key" (by decide)

/-- C2 counterexample: in the `App` store the persisted cap is N = 50, yet
appending a record to an in-memory log already holding 50 records yields an
in-memory log of 51 records in which the old tail record is still present —
the in-memory length does exceed N. -/
theorem C2_counterexample :
    (appAppend recB (List.replicate 50 recA)).length = 51 ∧
    recA ∈ appAppend recB (List.replicate 50 recA) := by
  constructor
  · decide
  · decide

/-- C2 (amended): in the playground store the cap N = 5 is enforced in
memory — appending to a log at capacity keeps length 5, puts the new record
at index 0, drops (and, for pairwise-distinct records, removes) the record
previously at index 4, and the length never exceeds 5.  In the `App` store
only the persisted snapshot is capped, at N = 50; the in-memory log grows
without truncation. -/
theorem C2_capacity :
    (∀ (r : TranslationResult) (h : List TranslationResult),
        h.length = 5 →
          pgAppend r h = r :: h.take 4 ∧ (pgAppend r h).length = 5) ∧
    (∀ (r : TranslationResult) (h : List TranslationResult),
        (pgAppend r h).length ≤ 5) ∧
    (∀ (r x : TranslationResult) (l : List TranslationResult),
        l.length = 4 → ((r :: l) ++ [x]).Nodup →
          x ∉ pgAppend r (l ++ [x])) ∧
    (∀ (r : TranslationRecord) (h : List TranslationRecord),
        (appPersist (appAppend r h)).length ≤ 50) := by
  refine ⟨?_, ?_, ?_, ?_⟩
  · intro r h hh
    constructor
    · simp [pgAppend, List.take_succ_cons]
    · simp [pgAppend, List.length_take, hh]
  · intro r h
    simp [pgAppend, List.length_take]
  · intro r x l hl hnd
    have htake : pgAppend r (l ++ [x]) = r :: l := by
      have h4 : (l ++ [x]).take 4 = l := by
        have := List.take_left l [x]
        rwa [hl] at this
      simp [pgAppend, List.take_succ_cons, h4]
    rw [htake]
    have hdisj : (r :: l).Disjoint [x] := List.disjoint_of_nodup_append hnd
    intro hx
    exact hdisj hx (by simp)
  · intro r h
    simp [appPersist, appAppend, List.length_take]

/-- C2 witness: the amended capacity statement on a concrete full
playground log. -/
theorem C2_capacity_witness :
    pgAppend (mkRes 9) [mkRes 1, mkRes 2, mkRes 3, mkRes 4, mkRes 5]
      = [mkRes 9, mkRes 1, mkRes 2, mkRes 3, mkRes 4] := by
  have h := (C2_capacity.1 (mkRes 9) [mkRes 1, mkRes 2, mkRes 3, mkRes 4, mkRes 5]
    (by decide)).1
  exact h.trans rfl

/-- C3 counterexample: appending to an in-memory `App` log of 50 records
leaves 51 records in memory while the persisted snapshot keeps only 50, so
the persisted snapshot does not deep-equal the in-memory log after the
mutation. -/
theorem C3_counterexample :
    appPersist (appAppend recB (List.replicate 50 recA))
      ≠ appAppend recB (List.replicate 50 recA) := by
  decide

/-- C3 (amended): after every mutation the persisted `App` snapshot equals
the 50-record front slice of the in-memory log — they deep-equal after
`clear` and after any append leaving at most 50 records, and a restart that
restores the persisted payload (a serialized array, hence a non-empty
string) recovers exactly such a log; records beyond the first 50 are lost
across a restart. -/
theorem C3_persistence_sync :
    (∀ (r : TranslationRecord) (h : List TranslationRecord),
        appPersist (appAppend r h) = (appAppend r h).take 50) ∧
    (∀ (r : TranslationRecord) (h : List TranslationRecord),
        h.length < 50 → appPersist (appAppend r h) = appAppend r h) ∧
    (∀ (h : List TranslationRecord),
        appPersist (appClearHistory h) = appClearHistory h) ∧
    (∀ (r : TranslationRecord) (h : List TranslationRecord) (s : String)
        (jsonParse : String → Except JsError (List TranslationRecord)),
        s ≠ "" →
        jsonParse s = Except.ok (appPersist (appAppend r h)) →
        h.length < 50 →
          (appRestore (some s) jsonParse).1 = appAppend r h) := by
  have key : ∀ (r : TranslationRecord) (h : List TranslationRecord),
      h.length < 50 → appPersist (appAppend r h) = appAppend r h := by
    intro r h hh
    have : (appAppend r h).length ≤ 50 := by
      simp [appAppend]
      omega
    simp [appPersist, List.take_of_length_le this]
  refine ⟨?_, key, ?_, ?_⟩
  · intro r h
    rfl
  · intro h
    rfl
  · intro r h s jsonParse hs hparse hh
    simp [appRestore, hs, hparse, key r h hh]

/-- C3 witness: the amended sync statement on a small concrete log. -/
theorem C3_persistence_sync_witness :
    appPersist (appAppend recB [recA]) = appAppend recB [recA] :=
  C3_persistence_sync.2.1 recB [recA] (by decide)

/-- C4 counterexample: in `App.handleTranslate` the credential check runs
after `setIsTranslating(true)`, so with non-empty text and an absent
credential the run does enter the translating state (while still making no
service call and leaving history unchanged). -/
theorem C4_counterexample :
    (appHandleTranslate "Salom" none AppLanguage.RU Tone.natural
        (SvcOutcome.ok (some "Privet")) [] "id1" 0).enteredTranslating = true ∧
    (appHandleTranslate "Salom" none AppLanguage.RU Tone.natural
        (SvcOutcome.ok (some "Privet")) [] "id1" 0).errorDetails
      = some appKeyMissingMessage ∧
    (appHandleTranslate "Salom" none AppLanguage.RU Tone.natural
        (SvcOutcome.ok (some "Privet")) [] "id1" 0).serviceCalls = 0 := by
  refine ⟨rfl, rfl, rfl⟩

/-- C4 (amended): the playground orchestrator enters TRANSLATING exactly
when the trimmed text is non-empty and the credential is present, and on a
rejected submit makes no service call and leaves history unchanged.  The
`App` orchestrator rejects empty text before entering the translating
state, but checks the credential only after entering it; in both guard
failures it still makes no external call and mutates no history. -/
theorem C4_submit_guards :
    (∀ (input : String) (settings : AppSettings) (svc : SvcOutcome)
        (hist : List TranslationResult) (now : Nat),
        AppStatus.TRANSLATING ∈ (pgHandleTranslate input settings svc hist now).statusTrace
          ↔ (jsTrim input ≠ "" ∧ settings.apiKey ≠ "")) ∧
    (∀ (input : String) (settings : AppSettings) (svc : SvcOutcome)
        (hist : List TranslationResult) (now : Nat),
        jsTrim input = "" ∨ settings.apiKey = "" →
          (pgHandleTranslate input settings svc hist now).serviceCalls = 0 ∧
          (pgHandleTranslate input settings svc hist now).history = hist) ∧
    (∀ (input : String) (envKey : Option String) (targetLang : AppLanguage)
        (tone : Tone) (svc : SvcOutcome) (hist : List TranslationRecord)
        (newId : String) (now : Nat),
        jsTrim input = "" →
          (appHandleTranslate input envKey targetLang tone svc hist newId now).enteredTranslating = false ∧
          (appHandleTranslate input envKey targetLang tone svc hist newId now).serviceCalls = 0 ∧
          (appHandleTranslate input envKey targetLang tone svc hist newId now).history = hist) ∧
    (∀ (input : String) (envKey : Option String) (targetLang : AppLanguage)
        (tone : Tone) (svc : SvcOutcome) (hist : List TranslationRecord)
        (newId : String) (now : Nat),
        jsTrim input ≠ "" → jsFalsyKey envKey = true →
          (appHandleTranslate input envKey targetLang tone svc hist newId now).enteredTranslating = true ∧
          (appHandleTranslate input envKey targetLang tone svc hist newId now).serviceCalls = 0 ∧
          (appHandleTranslate input envKey targetLang tone svc hist newId now).history = hist) := by
  refine ⟨?_, ?_, ?_, ?_⟩
  · intro input settings svc hist now
    by_cases c1 : jsTrim input = ""
    · rw [pg_empty_input input settings svc hist now c1]
      simp [c1]
    by_cases c2 : settings.apiKey = ""
    · rw [pg_empty_key input settings svc hist now c1 c2]
      simp [c1, c2]
    cases hres : (translateText input settings.mode settings.apiKey svc).result with
    | ok s =>
      rw [pg_ok input settings svc hist now s c1 c2 hres]
      simp [c1, c2]
    | error e =>
      rw [pg_err input settings svc hist now e c1 c2 hres]
      simp [c1, c2]
  · intro input settings svc hist now hguard
    rcases hguard with c1 | c2
    · rw [pg_empty_input input settings svc hist now c1]
      exact ⟨rfl, rfl⟩
    · by_cases c1 : jsTrim input = ""
      · rw [pg_empty_input input settings svc hist now c1]
        exact ⟨rfl, rfl⟩
      · rw [pg_empty_key input settings svc hist now c1 c2]
        exact ⟨rfl, rfl⟩
  · intro input envKey targetLang tone svc hist newId now c1
    simp [appHandleTranslate, c1]
  · intro input envKey targetLang tone svc hist newId now c1 c2
    simp [appHandleTranslate, c1, c2]

/-- C4 witness: the guard statement on a concrete rejected submit. -/
theorem C4_submit_guards_witness :
    (pgHandleTranslate "   " { mode := TranslationMode.UZ_RU, apiKey := "key" }
        (SvcOutcome.ok (some "Privet")) [] 0).serviceCalls = 0 ∧
    (pgHandleTranslate "   " { mode := TranslationMode.UZ_RU, apiKey := "key" }
        (SvcOutcome.ok (some "Privet")) [] 0).history = [] :=
  C4_submit_guards.2.1 "   " { mode := TranslationMode.UZ_RU, apiKey := "key" }
    (SvcOutcome.ok (some "Privet")) [] 0 (Or.inl (by decide))

/-- C5 counterexample: two distinct transport failures produce two distinct
user-facing messages in the playground, each equal to the underlying
diagnostic — the message is not a stable generic statement and the
transport internals are leaked. -/
theorem C5_counterexample :
    (pgHandleTranslate "Salom" { mode := TranslationMode.UZ_RU, apiKey := "key" }
        (SvcOutcome.exn { message := "network down" }) [] 0).errorMessage
      = some "network down" ∧
    (pgHandleTranslate "Salom" { mode := TranslationMode.UZ_RU, apiKey := "key" }
        (SvcOutcome.exn { message := "HTTP 500" }) [] 0).errorMessage
      = some "HTTP 500" ∧
    ("network down" : String) ≠ "HTTP 500" := by
  refine ⟨rfl, rfl, by decide⟩

/-- C5 (amended): on a service failure the user-facing message embeds the
original diagnostic rather than a stable generic statement: the playground
surfaces the caught message itself (a generic fallback appears only when
the message is empty), and `App` surfaces "Linguistic Error: " followed by
the caught message (except for the literal message "API_KEY_MISSING"). -/
theorem C5_message_leak :
    (∀ (input : String) (settings : AppSettings) (hist : List TranslationResult)
        (now : Nat) (msg : String),
        jsTrim input ≠ "" → settings.apiKey ≠ "" → msg ≠ "" →
          (pgHandleTranslate input settings (SvcOutcome.exn { message := msg }) hist now).errorMessage
            = some msg) ∧
    (∀ (input : String) (envKey : Option String) (targetLang : AppLanguage)
        (tone : Tone) (hist : List TranslationRecord) (newId : String)
        (now : Nat) (msg : String),
        jsTrim input ≠ "" → jsFalsyKey envKey = false → msg ≠ "API_KEY_MISSING" →
          (appHandleTranslate input envKey targetLang tone
              (SvcOutcome.exn { message := msg }) hist newId now).errorDetails
            = some ("Linguistic Error: " ++ msg)) := by
  constructor
  · intro input settings hist now msg h1 h2 hmsg
    have herr : (translateText input settings.mode settings.apiKey
        (SvcOutcome.exn { message := msg })).result = .error { message := msg } := by
      rw [translateText_exn input settings.mode settings.apiKey { message := msg } h2]
      simp [hmsg]
    rw [pg_err input settings (SvcOutcome.exn { message := msg }) hist now
      { message := msg } h1 h2 herr]
    simp [hmsg]
  · intro input envKey targetLang tone hist newId now msg h1 h2 hmsg
    simp [appHandleTranslate, h1, h2, hmsg]

/-- C5 witness: the leak statement on a concrete transport failure. -/
theorem C5_message_leak_witness :
    (pgHandleTranslate "Salom" { mode := TranslationMode.UZ_RU, apiKey := "key" }
        (SvcOutcome.exn { message := "socket hang up" }) [] 0).errorMessage
      = some "socket hang up" :=
  C5_message_leak.1 "Salom" { mode := TranslationMode.UZ_RU, apiKey := "key" } [] 0
    "socket hang up" (by decide) (by decide) (by decide)

/-- C6: whenever the playground run has entered TRANSLATING (both guards
passed) and the client call fails with any error, the status moves to
ERROR, the history log is unchanged (the playground history is never
persisted, so no persistence write occurs either), and the orchestrator
schedules an automatic return to READY after 5000 ms — a fixed delay
within the 2–5 second range. -/
theorem C6_error_path (input : String) (settings : AppSettings)
    (svc : SvcOutcome) (hist : List TranslationResult) (now : Nat) (e : JsError)
    (h1 : jsTrim input ≠ "") (h2 : settings.apiKey ≠ "")
    (hf : (translateText input settings.mode settings.apiKey svc).result = Except.error e) :
    (pgHandleTranslate input settings svc hist now).statusTrace
      = [AppStatus.TRANSLATING, AppStatus.ERROR, AppStatus.READY] ∧
    (pgHandleTranslate input settings svc hist now).history = hist ∧
    ∃ d, (pgHandleTranslate input settings svc hist now).returnDelayMs = some d ∧
      2000 ≤ d ∧ d ≤ 5000 := by
  rw [pg_err input settings svc hist now e h1 h2 hf]
  exact ⟨rfl, rfl, 5000, rfl, by norm_num, le_refl 5000⟩

/-- C6 witness: the error path on a concrete transport failure. -/
theorem C6_error_path_witness :
    (pgHandleTranslate "Salom" { mode := TranslationMode.UZ_RU, apiKey := "key" }
        (SvcOutcome.exn { message := "boom" }) [] 0).statusTrace
      = [AppStatus.TRANSLATING, AppStatus.ERROR, AppStatus.READY] ∧
    (pgHandleTranslate "Salom" { mode := TranslationMode.UZ_RU, apiKey := "key" }
        (SvcOutcome.exn { message := "boom" }) [] 0).history = [] ∧
    ∃ d, (pgHandleTranslate "Salom" { mode := TranslationMode.UZ_RU, apiKey := "key" }
        (SvcOutcome.exn { message := "boom" }) [] 0).returnDelayMs = some d ∧
      2000 ≤ d ∧ d ≤ 5000 :=
  C6_error_path "Salom" { mode := TranslationMode.UZ_RU, apiKey := "key" }
    (SvcOutcome.exn { message := "boom" }) [] 0 { message := "boom" }
    (by decide) (by decide) rfl

/-- C8 counterexample: a stored empty-string payload is unparsable (the
supplied `JSON.parse` model throws on it, as the real one does), yet the
`if (saved)` truthiness guard skips it, so the restore returns an empty log
with NO corruption diagnostic logged — not every malformed payload logs a
diagnostic. -/
theorem C8_counterexample :
    appRestore (some "")
        (fun s => Except.error { message := "SyntaxError: Unexpected end of JSON input" })
      = ([], false) := by
  rfl

/-- C8 (amended): the restore effect of `App` returns an empty log and logs
the corruption diagnostic for every present, non-empty stored payload on
which `JSON.parse` throws; an absent payload and an empty-string payload
are both skipped silently, also yielding an empty log but with no
diagnostic; being a total function, it raises nothing past the store
boundary. -/
theorem C8_restore_fail_soft
    (jsonParse : String → Except JsError (List TranslationRecord)) :
    (∀ (s : String) (e : JsError), s ≠ "" →
        jsonParse s = Except.error e → appRestore (some s) jsonParse = ([], true)) ∧
    appRestore none jsonParse = ([], false) ∧
    appRestore (some "") jsonParse = ([], false) := by
  refine ⟨?_, rfl, rfl⟩
  intro s e hs h
  simp [appRestore, hs, h]

/-- C8 witness: the fail-soft statement at a concrete non-empty malformed
payload. -/
theorem C8_restore_fail_soft_witness :
    appRestore (some "][")
        (fun s => Except.error { message := "SyntaxError: Unexpected token" })
      = ([], true) :=
  (C8_restore_fail_soft
      (fun s => Except.error { message := "SyntaxError: Unexpected token" })).1
    "][" { message := "SyntaxError: Unexpected token" } (by decide) rfl

/-- C9 counterexample: the system instruction built by `App` for the formal
tone contains the raw tone token "formal" (inside its mapped phrase), the
one for the slang tone contains "slang", and the tone-independent
instruction of `geminiService` always contains "natural" — so the built
instruction is not free of raw tone tokens. -/
theorem C9_counterexample :
    containsTok "formal" (appSystemInstruction AppLanguage.RU Tone.formal) = true ∧
    containsTok "slang" (appSystemInstruction AppLanguage.EN Tone.slang) = true ∧
    containsTok "natural" (svcSystemInstruction TranslationMode.UZ_RU) = true := by
  refine ⟨by decide, by decide, by decide⟩

/-- C9 (amended): every built `App` instruction contains the resolved
target-language name and the tone's mapped phrase; for the natural tone it
contains no raw tone token at all, while for formal and slang the raw
token occurs only because the mapped phrase itself contains that word.
The `geminiService` instruction contains its resolved language name and —
being tone-independent — always the word "natural". -/
theorem C9_instruction_contents :
    (∀ (targetLang : AppLanguage) (tone : Tone),
        containsTok (targetFull targetLang) (appSystemInstruction targetLang tone) = true) ∧
    (∀ (targetLang : AppLanguage) (tone : Tone),
        containsTok (toneMap tone) (appSystemInstruction targetLang tone) = true) ∧
    (∀ (targetLang : AppLanguage),
        containsTok "natural" (appSystemInstruction targetLang Tone.natural) = false ∧
        containsTok "formal" (appSystemInstruction targetLang Tone.natural) = false ∧
        containsTok "slang" (appSystemInstruction targetLang Tone.natural) = false) ∧
    (containsTok "formal" (toneMap Tone.formal) = true ∧
     containsTok "slang" (toneMap Tone.slang) = true) ∧
    (∀ (mode : TranslationMode),
        containsTok (svcTargetLanguage mode) (svcSystemInstruction mode) = true ∧
        containsTok "natural" (svcSystemInstruction mode) = true) := by
  refine ⟨?_, ?_, ?_, ?_, ?_⟩
  · intro targetLang tone
    cases targetLang <;> cases tone <;> decide
  · intro targetLang tone
    cases targetLang <;> cases tone <;> decide
  · intro targetLang
    cases targetLang <;> exact ⟨by decide, by decide, by decide⟩
  · exact ⟨by decide, by decide⟩
  · intro mode
    cases mode <;> exact ⟨by decide, by decide⟩
